import Mathlib

/-!
Verification of the subprocess-orchestration core of
`src/desktop-app/src-tauri/src/lib.rs` (game-asset-tracker desktop backend).

The Rust code is shallowly embedded: byte chunks arrive already decoded to
text (`String::from_utf8_lossy` at each consumption site is modelled as the
identity on the decoded text), the asynchronous channel of process events is
modelled as the list of events it will deliver, process spawning and the
blocking `uv sync` sub-invocation are modelled as environment parameters, and
the fire-and-forget `app.emit` notifications are modelled by returning the
list of emitted `LogEntry` values in emission order.
-/

deriving instance DecidableEq for Except

namespace GameAssetTracker

/-- Caller-supplied configuration (`IngestionConfig`, lib.rs lines 5-14). -/
structure IngestionConfig where
  path : Option String
  name : Option String
  source : String
  tags : List String
  license : Option String
  download_strategy : Option String
  output_dir : Option String
deriving Repr, DecidableEq

/-- Side-channel log notification (`LogEntry`, lib.rs lines 16-21); the Rust
field `log_type` is serialized as `type`. -/
structure LogEntry where
  log_type : String
  message : String
deriving Repr, DecidableEq

/-- Terminal structured result (`IngestionResult`, lib.rs lines 23-28). -/
structure IngestionResult where
  success : Bool
  manifest_json : Option String
  error : Option String
deriving Repr, DecidableEq

/-- Process events of the shell plugin (`CommandEvent`), with output chunks
already decoded to text.  Only the `code` field of the termination payload is
consulted by the code, so only it is modelled. -/
inductive CommandEvent where
  | stdout (line : String)
  | stderr (line : String)
  | terminated (code : Option Int)
  | error (err : String)
deriving Repr, DecidableEq

/-- Whether an event is a `Terminated` event. -/
def CommandEvent.isTerminated : CommandEvent → Bool
  | .terminated _ => true
  | _ => false

/-- Whether an event is an `Error` (spawn-level failure) event. -/
def CommandEvent.isErr : CommandEvent → Bool
  | .error _ => true
  | _ => false

/-- The receive loop of `run_uv_command` (lib.rs lines 145-188) over the list
of events the channel will deliver, carrying the stdout buffer, the stderr
buffer and the log entries emitted so far.  Returns the outcome, the emitted
log entries in emission order, and the suffix of the stream that was still
unreceived when the function returned (empty when the loop ran the stream to
exhaustion). -/
def run_uv_loop : List CommandEvent → String → String → List LogEntry →
    Except String IngestionResult × List LogEntry × List CommandEvent
  | [], _, _, logs => (Except.error "Process ended unexpectedly", logs, [])
  | .stdout line :: rest, sb, eb, logs =>
      run_uv_loop rest (sb ++ line) eb logs
  | .stderr line :: rest, sb, eb, logs =>
      run_uv_loop rest sb (eb ++ line ++ "\n") (logs ++ [⟨"stderr", line⟩])
  | .terminated code :: rest, sb, eb, logs =>
      if code = some 0 then
        (Except.ok ⟨true, some sb, none⟩, logs, rest)
      else
        (Except.ok ⟨false, none, some eb⟩, logs, rest)
  | .error err :: rest, _, _, logs =>
      (Except.error ("Command error: " ++ err), logs, rest)

/-- `run_uv_command` (lib.rs lines 132-189).  The spawn attempt either fails
with a message (the `map_err` on line 143) or yields the event stream, which
is then drained by the receive loop starting from empty buffers. -/
def run_uv_command : Except String (List CommandEvent) →
    Except String IngestionResult × List LogEntry × List CommandEvent
  | .error e => (Except.error ("Failed to spawn: " ++ e), [], [])
  | .ok events => run_uv_loop events "" "" []

/-- Validation and argument-vector construction of `run_filesystem_ingestion`
(lib.rs lines 48-72): `path` and `name` must be present (`ok_or` on lines
48-49), `--tags` is appended exactly when `tags` is non-empty, `--license`
exactly when `license` is present and non-empty. -/
def filesystem_args (config : IngestionConfig) : Except String (List String) :=
  match config.path with
  | none => Except.error "Path is required for filesystem source"
  | some path =>
    match config.name with
    | none => Except.error "Name is required for filesystem source"
    | some name =>
      let args := ["run", "ingest", "--path", path, "--name", name,
        "--source", "filesystem"]
      let args := if config.tags.isEmpty then args
        else args ++ "--tags" :: config.tags
      let args :=
        match config.license with
        | some license =>
            if license.isEmpty then args else args ++ ["--license", license]
        | none => args
      Except.ok args

/-- `run_filesystem_ingestion` (lib.rs lines 43-75): validation and argument
building, then the main command.  `spawn` maps an argument vector to the
spawn outcome for that invocation; it is consulted only when the arguments
were successfully built. -/
def run_filesystem_ingestion (config : IngestionConfig)
    (spawn : List String → Except String (List CommandEvent)) :
    Except String IngestionResult × List LogEntry :=
  match filesystem_args config with
  | .error e => (Except.error e, [])
  | .ok args =>
    let r := run_uv_command (spawn args)
    (r.1, r.2.1)

/-- Captured output of the blocking `uv sync` sub-invocation, decoded.  Only
the status and stderr are consulted by the code (stdout is discarded). -/
structure Output where
  status_success : Bool
  stdout : String
  stderr : String
deriving Repr, DecidableEq

/-- `run_uv_sync` (lib.rs lines 113-130) over the sub-invocation outcome:
either a launch failure message or the captured output of the finished sync
process. -/
def run_uv_sync : Except String Output → Except String Unit
  | .error e => Except.error ("Failed to run uv sync: " ++ e)
  | .ok output =>
    if output.status_success then Except.ok ()
    else Except.error ("Dependency sync failed: " ++ output.stderr)

/-- Argument vector of the marketplace helper invocation (lib.rs lines
92-108): fixed module-invocation prefix, the source as positional argument,
then the optional strategy and output-dir flag pairs when present. -/
def marketplace_args (config : IngestionConfig) : List String :=
  let args := ["run", "python", "-m",
    "game_asset_tracker_ingestion.gui_helper", config.source]
  let args :=
    match config.download_strategy with
    | some strategy => args ++ ["--download-strategy", strategy]
    | none => args
  match config.output_dir with
  | some output => args ++ ["--output-dir", output]
  | none => args

/-- `run_marketplace_ingestion` (lib.rs lines 77-111): emit the info log,
run the sync to completion, and only on sync success build and run the main
command. -/
def run_marketplace_ingestion (config : IngestionConfig)
    (syncResult : Except String Output)
    (spawn : List String → Except String (List CommandEvent)) :
    Except String IngestionResult × List LogEntry :=
  let infoEntry : LogEntry :=
    ⟨"info", "Syncing " ++ config.source ++ " dependencies..."⟩
  match run_uv_sync syncResult with
  | .error e => (Except.error e, [infoEntry])
  | .ok _ =>
    let r := run_uv_command (spawn (marketplace_args config))
    (r.1, infoEntry :: r.2.1)

/-- `run_ingestion` (lib.rs lines 30-41): dispatch on the source
discriminant. -/
def run_ingestion (config : IngestionConfig) (syncResult : Except String Output)
    (spawn : List String → Except String (List CommandEvent)) :
    Except String IngestionResult × List LogEntry :=
  if config.source = "filesystem" then
    run_filesystem_ingestion config spawn
  else if config.source = "fab" ∨ config.source = "uas" then
    run_marketplace_ingestion config syncResult spawn
  else
    (Except.error ("Unknown source type: " ++ config.source), [])

/-- Every `Except.ok` outcome of the receive loop has the exclusive shape:
success with a populated stdout payload and no error, or failure with no
payload and a populated error. -/
theorem run_uv_loop_ok_shape (events : List CommandEvent) :
    ∀ sb eb logs r l c, run_uv_loop events sb eb logs = (Except.ok r, l, c) →
      (r.success = true ∧ r.manifest_json.isSome = true ∧ r.error = none) ∨
      (r.success = false ∧ r.manifest_json = none ∧ r.error.isSome = true) := by
  induction events with
  | nil =>
    intro sb eb logs r l c h
    simp [run_uv_loop] at h
  | cons e rest ih =>
    intro sb eb logs r l c h
    cases e with
    | stdout line => exact ih _ _ _ _ _ _ h
    | stderr line => exact ih _ _ _ _ _ _ h
    | terminated code =>
      by_cases hc : code = some 0
      · simp [run_uv_loop, hc] at h
        obtain ⟨h1, -, -⟩ := h
        left
        simp [← h1]
      · simp [run_uv_loop, hc] at h
        obtain ⟨h1, -, -⟩ := h
        right
        simp [← h1]
    | error err =>
      simp [run_uv_loop] at h

/-- C1: on a terminated process, exit code 0 yields
`{success: true, payload: stdout buffer, error: none}`; any other exit code
(or an absent code, for signal termination) yields
`{success: false, payload: none, error: stderr buffer}`; and every structured
result returned by `run_uv_command` populates exactly one of payload/error,
discriminated by `success`. -/
theorem outcome_classification_correct (code : Option Int) (sb eb : String)
    (logs : List LogEntry) (rest : List CommandEvent) :
    (code = some 0 →
      run_uv_loop (.terminated code :: rest) sb eb logs
        = (Except.ok ⟨true, some sb, none⟩, logs, rest)) ∧
    (code ≠ some 0 →
      run_uv_loop (.terminated code :: rest) sb eb logs
        = (Except.ok ⟨false, none, some eb⟩, logs, rest)) ∧
    (∀ spawnResult r l c, run_uv_command spawnResult = (Except.ok r, l, c) →
      (r.success = true ∧ r.manifest_json.isSome = true ∧ r.error = none) ∨
      (r.success = false ∧ r.manifest_json = none ∧ r.error.isSome = true)) := by
  refine ⟨fun h => by simp [run_uv_loop, h], fun h => by simp [run_uv_loop, h], ?_⟩
  intro spawnResult r l c h
  cases spawnResult with
  | error e => simp [run_uv_command] at h
  | ok events => exact run_uv_loop_ok_shape events _ _ _ _ _ _ h

/-- Witness for C1 at exit code 0 and at exit code 1. -/
theorem outcome_classification_correct_witness :
    run_uv_loop [.terminated (some 0)] "ok" "" []
      = (Except.ok ⟨true, some "ok", none⟩, [], [])
    ∧ run_uv_loop [.terminated (some 1)] "" "boom" []
      = (Except.ok ⟨false, none, some "boom"⟩, [], []) :=
  ⟨(outcome_classification_correct (some 0) "ok" "" [] []).1 rfl,
   (outcome_classification_correct (some 1) "" "boom" [] []).2.1 (by decide)⟩

/-- C2 counterexample: with stderr chunks that already carry a trailing
newline, the aggregator appends a further line separator after each chunk, so
the accumulated error buffer is "err1\n\nerr2\n\n", not the claimed
"err1\nerr2\n". -/
theorem stderr_trailing_newline_counterexample :
    run_uv_loop [.stderr "err1\n", .stderr "err2\n", .terminated (some 1)] "" "" []
      = (Except.ok ⟨false, none, some "err1\n\nerr2\n\n"⟩,
         [⟨"stderr", "err1\n"⟩, ⟨"stderr", "err2\n"⟩], [])
    ∧ ("err1\n\nerr2\n\n" : String) ≠ "err1\nerr2\n" := by
  refine ⟨by decide, by decide⟩

/-- C2 (amended): for stderr chunks "err1" then "err2" delivered without a
trailing separator (as the line-based supervisor delivers them), followed by
termination with exit code 1, the result is
`{success: false, payload: none, error: "err1\nerr2\n"}` (the aggregator
appends the separator), and each chunk is forwarded individually to the log
sink as a stderr `LogEntry` carrying the decoded text, in arrival order. -/
theorem stderr_chunks_aggregated_and_forwarded :
    run_uv_loop [.stderr "err1", .stderr "err2", .terminated (some 1)] "" "" []
      = (Except.ok ⟨false, none, some "err1\nerr2\n"⟩,
         [⟨"stderr", "err1"⟩, ⟨"stderr", "err2"⟩], []) := by decide

/-- C3 counterexample: an event arriving after the `Terminated` event is left
unreceived — the loop returns at the terminal event instead of draining the
stream to exhaustion. -/
theorem drain_after_terminated_counterexample :
    (run_uv_loop [.terminated (some 0), .stdout "late"] "" "" []).2.2
      = [CommandEvent.stdout "late"]
    ∧ [CommandEvent.stdout "late"] ≠ ([] : List CommandEvent) := by
  refine ⟨by decide, by decide⟩

/-- C3 (amended): the aggregator consumes events only up to the first
terminal event: whatever follows a `Terminated` event is left unconsumed, and
the stream is drained to exhaustion exactly when no `Terminated` or `Error`
event arrives. -/
theorem stream_consumption_stops_at_terminal :
    (∀ (code : Option Int) (rest : List CommandEvent) (sb eb : String)
        (logs : List LogEntry),
      (run_uv_loop (.terminated code :: rest) sb eb logs).2.2 = rest) ∧
    (∀ (events : List CommandEvent) (sb eb : String) (logs : List LogEntry),
      events.all (fun e => !e.isTerminated && !e.isErr) = true →
      (run_uv_loop events sb eb logs).2.2 = []) := by
  constructor
  · intro code rest sb eb logs
    by_cases hc : code = some 0 <;> simp [run_uv_loop, hc]
  · intro events
    induction events with
    | nil => intro sb eb logs _; simp [run_uv_loop]
    | cons e rest ih =>
      intro sb eb logs h
      simp only [List.all_cons, Bool.and_eq_true, Bool.not_eq_true'] at h
      obtain ⟨⟨ht, he⟩, hrest⟩ := h
      cases e with
      | stdout line => exact ih _ _ _ hrest
      | stderr line => exact ih _ _ _ hrest
      | terminated code => simp [CommandEvent.isTerminated] at ht
      | error err => simp [CommandEvent.isErr] at he

/-- Witness for C3 (amended): events after the terminal event remain
unconsumed; a stream of plain output events is drained to exhaustion. -/
theorem stream_consumption_stops_at_terminal_witness :
    (run_uv_loop [.terminated (some 1), .stdout "x"] "" "" []).2.2
      = [CommandEvent.stdout "x"]
    ∧ (run_uv_loop [.stdout "a", .stderr "b"] "" "" []).2.2 = [] :=
  ⟨stream_consumption_stops_at_terminal.1 (some 1) [CommandEvent.stdout "x"] "" "" [],
   stream_consumption_stops_at_terminal.2 [CommandEvent.stdout "a", CommandEvent.stderr "b"]
     "" "" [] (by decide)⟩

/-- Closed form of `filesystem_args` when both required fields are present. -/
theorem filesystem_args_present (path name src : String) (tags : List String)
    (license ds od : Option String) :
    filesystem_args ⟨some path, some name, src, tags, license, ds, od⟩
      = Except.ok (["run", "ingest", "--path", path, "--name", name,
            "--source", "filesystem"]
          ++ (if tags = [] then [] else "--tags" :: tags)
          ++ (match license with
              | some l => if l = "" then [] else ["--license", l]
              | none => [])) := by
  simp only [filesystem_args]
  cases license with
  | none =>
    by_cases ht : tags = [] <;>
      simp [ht, List.isEmpty_iff]
  | some l =>
    by_cases ht : tags = [] <;> by_cases hl : l = "" <;>
      simp [ht, hl, List.isEmpty_iff, String.isEmpty_iff]

/-- C4: for a filesystem config with `path` and `name` present, the argument
vector is the fixed prefix `run ingest`, then
`--path <path> --name <name> --source filesystem`, then `--tags` followed by
the tags in input order (no deduplication) exactly when `tags` is non-empty,
then `--license <license>` exactly when `license` is present and
non-empty. -/
theorem filesystem_args_structure (path name src : String) (tags : List String)
    (license ds od : Option String) :
    filesystem_args ⟨some path, some name, src, tags, license, ds, od⟩
      = Except.ok (["run", "ingest", "--path", path, "--name", name,
            "--source", "filesystem"]
          ++ (if tags = [] then [] else "--tags" :: tags)
          ++ (match license with
              | some l => if l = "" then [] else ["--license", l]
              | none => [])) :=
  filesystem_args_present path name src tags license ds od

/-- C5: a filesystem config missing `path` (or, with `path` present, missing
`name`) fails with the corresponding missing-field validation error before
any argument vector is built, and `run_filesystem_ingestion` returns that
hard error with no log emission, for every possible spawn behaviour (so no
process is spawned). -/
theorem missing_field_validation (config : IngestionConfig)
    (spawn : List String → Except String (List CommandEvent)) :
    (config.path = none →
      filesystem_args config = Except.error "Path is required for filesystem source"
      ∧ run_filesystem_ingestion config spawn
          = (Except.error "Path is required for filesystem source", [])) ∧
    (config.path ≠ none → config.name = none →
      filesystem_args config = Except.error "Name is required for filesystem source"
      ∧ run_filesystem_ingestion config spawn
          = (Except.error "Name is required for filesystem source", [])) := by
  constructor
  · intro hp
    have hargs : filesystem_args config
        = Except.error "Path is required for filesystem source" := by
      simp [filesystem_args, hp]
    exact ⟨hargs, by simp [run_filesystem_ingestion, hargs]⟩
  · intro hp hn
    obtain ⟨p, hp'⟩ := Option.ne_none_iff_exists'.mp hp
    have hargs : filesystem_args config
        = Except.error "Name is required for filesystem source" := by
      simp [filesystem_args, hp', hn]
    exact ⟨hargs, by simp [run_filesystem_ingestion, hargs]⟩

/-- Witness for C5: a config with no `path`, and one with a `path` but no
`name`. -/
theorem missing_field_validation_witness :
    run_filesystem_ingestion ⟨none, some "n", "filesystem", [], none, none, none⟩
        (fun _ => Except.ok [])
      = (Except.error "Path is required for filesystem source", [])
    ∧ run_filesystem_ingestion ⟨some "p", none, "filesystem", [], none, none, none⟩
        (fun _ => Except.ok [])
      = (Except.error "Name is required for filesystem source", []) :=
  ⟨((missing_field_validation ⟨none, some "n", "filesystem", [], none, none, none⟩
      (fun _ => Except.ok [])).1 rfl).2,
   ((missing_field_validation ⟨some "p", none, "filesystem", [], none, none, none⟩
      (fun _ => Except.ok [])).2 (by simp) rfl).2⟩

/-- C6: a config whose source discriminant is none of `filesystem`, `fab`,
`uas` fails with the unknown-source error carrying the offending value,
independently of the sync and spawn environments (so before any process is
spawned) and with no log emission. -/
theorem unknown_source_rejected (config : IngestionConfig)
    (syncResult : Except String Output)
    (spawn : List String → Except String (List CommandEvent))
    (h1 : config.source ≠ "filesystem") (h2 : config.source ≠ "fab")
    (h3 : config.source ≠ "uas") :
    run_ingestion config syncResult spawn
      = (Except.error ("Unknown source type: " ++ config.source), []) := by
  simp [run_ingestion, h1, h2, h3]

/-- Witness for C6 at the source value "steam". -/
theorem unknown_source_rejected_witness :
    run_ingestion ⟨none, none, "steam", [], none, none, none⟩
        (Except.ok ⟨true, "", ""⟩) (fun _ => Except.ok [])
      = (Except.error "Unknown source type: steam", []) :=
  unknown_source_rejected ⟨none, none, "steam", [], none, none, none⟩
    (Except.ok ⟨true, "", ""⟩) (fun _ => Except.ok [])
    (by decide) (by decide) (by decide)

/-- C7: the marketplace flow emits the info log entry first; when the sync
process exits unsuccessfully the whole operation aborts with the sync-failed
error carrying the sync's captured stderr (its stdout never influences the
outcome), the main command never runs (the result is the same for every
spawn behaviour and no further log entry is emitted); when the sync
succeeds, the main command runs and its log entries follow the info
entry. -/
theorem marketplace_sync_gate (config : IngestionConfig) (output : Output)
    (spawn : List String → Except String (List CommandEvent)) :
    (output.status_success = false →
      run_marketplace_ingestion config (Except.ok output) spawn
        = (Except.error ("Dependency sync failed: " ++ output.stderr),
           [⟨"info", "Syncing " ++ config.source ++ " dependencies..."⟩])) ∧
    (output.status_success = true →
      run_marketplace_ingestion config (Except.ok output) spawn
        = ((run_uv_command (spawn (marketplace_args config))).1,
           ⟨"info", "Syncing " ++ config.source ++ " dependencies..."⟩
             :: (run_uv_command (spawn (marketplace_args config))).2.1)) := by
  constructor
  · intro hfail
    simp [run_marketplace_ingestion, run_uv_sync, hfail]
  · intro hok
    simp [run_marketplace_ingestion, run_uv_sync, hok]

/-- Witness for C7: a failed sync aborts with only the info log emitted; a
successful sync runs the main command and appends its stderr log entries
after the info entry. -/
theorem marketplace_sync_gate_witness :
    run_marketplace_ingestion ⟨none, none, "fab", [], none, none, none⟩
        (Except.ok ⟨false, "ignored stdout", "lock error"⟩)
        (fun _ => Except.ok [.terminated (some 0)])
      = (Except.error "Dependency sync failed: lock error",
         [⟨"info", "Syncing fab dependencies..."⟩])
    ∧ run_marketplace_ingestion ⟨none, none, "fab", [], none, none, none⟩
        (Except.ok ⟨true, "", ""⟩)
        (fun _ => Except.ok [.stderr "w", .terminated (some 0)])
      = (Except.ok ⟨true, some "", none⟩,
         [⟨"info", "Syncing fab dependencies..."⟩, ⟨"stderr", "w"⟩]) := by
  constructor
  · exact (marketplace_sync_gate ⟨none, none, "fab", [], none, none, none⟩
      ⟨false, "ignored stdout", "lock error"⟩
      (fun _ => Except.ok [.terminated (some 0)])).1 rfl
  · have h := (marketplace_sync_gate ⟨none, none, "fab", [], none, none, none⟩
      ⟨true, "", ""⟩ (fun _ => Except.ok [.stderr "w", .terminated (some 0)])).2 rfl
    simpa using h

/-- C8: a spawn failure surfaces a hard error containing the failure message
and no structured result; a spawn-level `Error` event as the sole stream
event likewise surfaces a hard error containing its message; by contrast a
process that spawns and terminates with a non-zero exit code produces a
normal structured result with `success = false`. -/
theorem spawn_error_hard_failure :
    (∀ e, run_uv_command (Except.error e)
      = (Except.error ("Failed to spawn: " ++ e), [], [])) ∧
    (∀ m, run_uv_command (Except.ok [.error m])
      = (Except.error ("Command error: " ++ m), [], [])) ∧
    (∀ (code : Option Int) (rest : List CommandEvent), code ≠ some 0 →
      (run_uv_command (Except.ok (.terminated code :: rest))).1
        = Except.ok ⟨false, none, some ""⟩) := by
  refine ⟨fun e => rfl, fun m => rfl, fun code rest h => ?_⟩
  simp [run_uv_command, run_uv_loop, h]

/-- Witness for C8: spawn failure "not found", sole `Error("not found")`
event, and a non-zero exit. -/
theorem spawn_error_hard_failure_witness :
    run_uv_command (Except.error "not found")
      = (Except.error "Failed to spawn: not found", [], [])
    ∧ run_uv_command (Except.ok [.error "not found"])
      = (Except.error "Command error: not found", [], [])
    ∧ (run_uv_command (Except.ok [.terminated (some 2)])).1
      = Except.ok ⟨false, none, some ""⟩ :=
  ⟨spawn_error_hard_failure.1 "not found",
   spawn_error_hard_failure.2.1 "not found",
   spawn_error_hard_failure.2.2 (some 2) [] (by decide)⟩

/-- C9: when the event stream closes without ever delivering a `Terminated`
event, the invocation surfaces a hard error and never a structured result;
when additionally no `Error` event occurred, that hard error is the
stream-ended-unexpectedly message. -/
theorem stream_ended_unexpectedly (events : List CommandEvent)
    (h : events.all (fun e => !e.isTerminated) = true) :
    (∀ sb eb logs r, (run_uv_loop events sb eb logs).1 ≠ Except.ok r) ∧
    (events.all (fun e => !e.isErr) = true →
      ∀ sb eb logs,
        (run_uv_loop events sb eb logs).1 = Except.error "Process ended unexpectedly") := by
  induction events with
  | nil =>
    exact ⟨fun sb eb logs r => by simp [run_uv_loop], fun _ sb eb logs => rfl⟩
  | cons e rest ih =>
    simp only [List.all_cons, Bool.and_eq_true, Bool.not_eq_true'] at h
    obtain ⟨ht, hrest⟩ := h
    obtain ⟨ih1, ih2⟩ := ih hrest
    cases e with
    | stdout line =>
      refine ⟨fun sb eb logs r => ih1 _ _ _ r, fun herr sb eb logs => ?_⟩
      simp only [List.all_cons, Bool.and_eq_true, Bool.not_eq_true'] at herr
      exact ih2 (by simp [herr.2]) _ _ _
    | stderr line =>
      refine ⟨fun sb eb logs r => ih1 _ _ _ r, fun herr sb eb logs => ?_⟩
      simp only [List.all_cons, Bool.and_eq_true, Bool.not_eq_true'] at herr
      exact ih2 (by simp [herr.2]) _ _ _
    | terminated code => simp [CommandEvent.isTerminated] at ht
    | error err =>
      refine ⟨fun sb eb logs r => by simp [run_uv_loop], fun herr sb eb logs => ?_⟩
      simp only [List.all_cons, Bool.and_eq_true, Bool.not_eq_true'] at herr
      simp [CommandEvent.isErr] at herr

/-- Witness for C9: a stream of two output chunks and no terminal event. -/
theorem stream_ended_unexpectedly_witness :
    (run_uv_loop [.stdout "a", .stderr "b"] "" "" []).1
      = Except.error "Process ended unexpectedly" :=
  (stream_ended_unexpectedly [.stdout "a", .stderr "b"] (by decide)).2
    (by decide) "" "" []

/-- C10: a filesystem config whose `path` and `name` are present but empty
strings passes the presence-only validation, and the built argument vector
carries the empty strings as the flag values — presence, not non-emptiness,
is what is validated. -/
theorem empty_string_fields_accepted (src : String) (tags : List String)
    (license ds od : Option String) :
    filesystem_args ⟨some "", some "", src, tags, license, ds, od⟩
      = Except.ok (["run", "ingest", "--path", "", "--name", "",
            "--source", "filesystem"]
          ++ (if tags = [] then [] else "--tags" :: tags)
          ++ (match license with
              | some l => if l = "" then [] else ["--license", l]
              | none => [])) :=
  filesystem_args_present "" "" src tags license ds od

end GameAssetTracker
